import Mathlib

/-!
Shallow embedding of the DNS server in `src/main.rs` (kantmrv/dns_server).

Modelling conventions:
- Rust byte buffers (`&[u8]`) are `List Nat` whose entries are byte values.
- A `std::io::Cursor` is an explicit position `pos : Nat` into the buffer;
  a failed `read_u8`/`read_u16` (end of input) leaves the position unchanged,
  exactly as the Rust cursor does.
- Rust `String` names are modelled as their byte lists (`List Nat`); the
  ASCII dot is byte 46, so `rsplit_once('.')` is a split at the last 46.
- Machine integers are `Nat` with explicit `% 256` where a `u8` shift can
  overflow (Rust `<<` on `u8` discards the shifted-out bits).
- `anyhow::Result` failure is `Except`/`Option` error; a Rust `panic!` is a
  distinct error constructor, never silently merged with `Err`.
-/

/-- `enum ResponseCode` (src/main.rs lines 41-50). -/
inductive ResponseCode where
  | NoError
  | FormatError
  | ServerFailure
  | NameError
  | NotImplemented
  | Refused
deriving DecidableEq, Repr

/-- The discriminant of `ResponseCode` (`self.rcode as u8`). -/
def ResponseCode.val : ResponseCode → Nat
  | .NoError => 0
  | .FormatError => 1
  | .ServerFailure => 2
  | .NameError => 3
  | .NotImplemented => 4
  | .Refused => 5

/-- `impl From<u8> for ResponseCode` (lines 51-63): the wildcard arm is
`panic!("Invalid value")`, modelled here as `none`. -/
def ResponseCode.fromU8 : Nat → Option ResponseCode
  | 0 => some .NoError
  | 1 => some .FormatError
  | 2 => some .ServerFailure
  | 3 => some .NameError
  | 4 => some .NotImplemented
  | 5 => some .Refused
  | _ => none

/-- `enum RecordType` (lines 160-179). -/
inductive RecordType where
  | A | NS | MD | MF | CNAME | SOA | MB | MG
  | MR | NULL | WKS | PTR | HINFO | MINFO | MX | TXT
deriving DecidableEq, Repr

/-- The discriminant of `RecordType` (`self.r#type as u16`). -/
def RecordType.val : RecordType → Nat
  | .A => 1 | .NS => 2 | .MD => 3 | .MF => 4
  | .CNAME => 5 | .SOA => 6 | .MB => 7 | .MG => 8
  | .MR => 9 | .NULL => 10 | .WKS => 11 | .PTR => 12
  | .HINFO => 13 | .MINFO => 14 | .MX => 15 | .TXT => 16

/-- `impl From<u16> for RecordType` (lines 180-202): the wildcard arm is
`panic!("Invalid value")`, modelled here as `none`. -/
def RecordType.fromU16 : Nat → Option RecordType
  | 1 => some .A | 2 => some .NS | 3 => some .MD | 4 => some .MF
  | 5 => some .CNAME | 6 => some .SOA | 7 => some .MB | 8 => some .MG
  | 9 => some .MR | 10 => some .NULL | 11 => some .WKS | 12 => some .PTR
  | 13 => some .HINFO | 14 => some .MINFO | 15 => some .MX | 16 => some .TXT
  | _ => none

/-- `enum RecordClass` (lines 203-210). -/
inductive RecordClass where
  | IN | CS | CH | HS
deriving DecidableEq, Repr

/-- The discriminant of `RecordClass` (`self.class as u16`). -/
def RecordClass.val : RecordClass → Nat
  | .IN => 1 | .CS => 2 | .CH => 3 | .HS => 4

/-- `impl From<u16> for RecordClass` (lines 211-221): the wildcard arm is
`panic!("Invalid value")`, modelled here as `none`. -/
def RecordClass.fromU16 : Nat → Option RecordClass
  | 1 => some .IN | 2 => some .CS | 3 => some .CH | 4 => some .HS
  | _ => none

/-- `struct DnsHeader` (lines 65-81). All integer fields are `Nat`
(`u16` for `id` and the counts, `u8` for `opcode`). -/
structure DnsHeader where
  id : Nat
  qr : Bool
  opcode : Nat
  aa : Bool
  tc : Bool
  rd : Bool
  ra : Bool
  z : Bool
  rcode : ResponseCode
  qdcount : Nat
  ancount : Nat
  nscount : Nat
  arcount : Nat
deriving DecidableEq, Repr

/-- `struct DnsQuestion` (lines 223-228); `name` is the byte list of the
Rust `String`, `rtype`/`rclass` stand for the raw-identifier fields
`r#type`/`class`. -/
structure DnsQuestion where
  name : List Nat
  rtype : RecordType
  rclass : RecordClass
deriving DecidableEq, Repr

/-- `struct DnsAnswer` (lines 277-285). -/
structure DnsAnswer where
  name : List Nat
  rtype : RecordType
  rclass : RecordClass
  ttl : Nat
  length : Nat
  data : List Nat
deriving DecidableEq, Repr

/-- `struct DnsMessage` (lines 7-12). -/
structure DnsMessage where
  header : DnsHeader
  questions : List DnsQuestion
  answers : List DnsAnswer
deriving DecidableEq, Repr

/-- Big-endian bytes of a `u16` (`put_u16` / `u16::to_be_bytes`). -/
def u16be (n : Nat) : List Nat := [n / 256 % 256, n % 256]

/-- Big-endian bytes of a `u32` (`u32::to_be_bytes`). -/
def u32be (n : Nat) : List Nat :=
  [n / 16777216 % 256, n / 65536 % 256, n / 256 % 256, n % 256]

/-- `Cursor::read_u8`: one byte at `pos`, advancing the cursor; `none` at end
of input (the cursor does not move on failure). -/
def readU8 (buf : List Nat) (pos : Nat) : Option (Nat × Nat) :=
  match buf.get? pos with
  | some b => some (b, pos + 1)
  | none => none

/-- `Cursor::read_u16::<BigEndian>`: two bytes at `pos`, big-endian. -/
def readU16 (buf : List Nat) (pos : Nat) : Option (Nat × Nat) :=
  match buf.get? pos, buf.get? (pos + 1) with
  | some hi, some lo => some (hi * 256 + lo, pos + 2)
  | _, _ => none

/-- `DnsHeader::to_be_bytes` (lines 114-134).  Byte 2 is
`(qr<<7)|(opcode<<3)|(aa<<2)|(tc<<1)|rd`; byte 3 is
`(ra<<7)|(z<<4)|(rcode<<7)` where the `u8` shift of the rcode discriminant
discards overflowing bits (`% 256`). -/
def DnsHeader.to_be_bytes (h : DnsHeader) : List Nat :=
  u16be h.id ++
  [(h.qr.toNat <<< 7) ||| ((h.opcode <<< 3) % 256) ||| (h.aa.toNat <<< 2) |||
     (h.tc.toNat <<< 1) ||| h.rd.toNat] ++
  [(h.ra.toNat <<< 7) ||| (h.z.toNat <<< 4) ||| ((h.rcode.val <<< 7) % 256)] ++
  u16be h.qdcount ++ u16be h.ancount ++ u16be h.nscount ++ u16be h.arcount

/-- `DnsHeader::read` (lines 135-157): reads the id (2 bytes) and one flag
byte, then overwrites every field; the remaining 9 header bytes are never
read.  `none` models the propagated `Err` of `read_u16`/`read_u8`. -/
def DnsHeader.read (h : DnsHeader) (buf : List Nat) (pos : Nat) :
    Option (DnsHeader × Nat) :=
  match readU16 buf pos with
  | none => none
  | some (i, p1) =>
    match readU8 buf p1 with
    | none => none
    | some (flag, p2) =>
      let opc := (flag &&& 112) >>> 3
      some ({ h with
        id := i
        qr := true
        opcode := opc
        aa := false
        tc := false
        rd := decide (0 < flag &&& 1)
        ra := false
        z := false
        rcode := if opc = 0 then ResponseCode.NoError else ResponseCode.NotImplemented
        qdcount := 1
        ancount := 1
        nscount := 0
        arcount := 0 }, p2)

/-- Encoding errors of the `to_be_bytes` methods.  `invalidLabel` is the
`anyhow!("Invalid label")` error, `labelTooBig` the
`anyhow!("Label is too big")` error, and `panicked` the bare `panic!()` in
`DnsAnswer::to_be_bytes`. -/
inductive EncErr where
  | invalidLabel
  | labelTooBig
  | panicked
deriving DecidableEq, Repr

/-- Decidable equality for `Except`, so encoder results can be checked by
evaluation. -/
instance {ε α : Type} [DecidableEq ε] [DecidableEq α] : DecidableEq (Except ε α) :=
  fun x y =>
    match x, y with
    | .ok a, .ok b =>
      match decEq a b with
      | isTrue h => isTrue (h ▸ rfl)
      | isFalse h => isFalse fun hh => h (Except.ok.inj hh)
    | .error e, .error f =>
      match decEq e f with
      | isTrue h => isTrue (h ▸ rfl)
      | isFalse h => isFalse fun hh => h (Except.error.inj hh)
    | .ok _, .error _ => isFalse fun hh => Except.noConfusion hh
    | .error _, .ok _ => isFalse fun hh => Except.noConfusion hh

/-- `str::rsplit_once('.')`: split at the LAST dot (byte 46); `none` when the
name contains no dot. -/
def rsplitOnceDot : List Nat → Option (List Nat × List Nat)
  | [] => none
  | b :: rest =>
    match rsplitOnceDot rest with
    | some (l1, l2) => some (b :: l1, l2)
    | none => if b = 46 then some ([], rest) else none

/-- `DnsQuestion::to_be_bytes` (lines 237-256): split the name at its last
dot, reject parts longer than 255 bytes, then emit
`len(l1), l1, len(l2), l2, 0, type, class`. -/
def DnsQuestion.to_be_bytes (q : DnsQuestion) : Except EncErr (List Nat) :=
  match rsplitOnceDot q.name with
  | none => Except.error EncErr.invalidLabel
  | some (l1, l2) =>
    if l1.length > 255 ∨ l2.length > 255 then Except.error EncErr.labelTooBig
    else Except.ok ([l1.length % 256] ++ l1 ++ [l2.length % 256] ++ l2 ++ [0] ++
      u16be q.rtype.val ++ u16be q.rclass.val)

/-- The `for _ in 0..len { name.push(buf.read_u8().unwrap_or(0)); }` loop in
`DnsQuestion::read`: reads `len` bytes one at a time, pushing 0 (without
moving the cursor) once the end of input is reached. -/
def readBytesPadded (buf : List Nat) (pos : Nat) (len : Nat) (acc : List Nat) :
    List Nat × Nat :=
  match len with
  | 0 => (acc, pos)
  | n + 1 =>
    match readU8 buf pos with
    | some (b, p1) => readBytesPadded buf p1 n (acc ++ [b])
    | none => readBytesPadded buf pos n (acc ++ [0])

/-- The `loop` in `DnsQuestion::read` (lines 259-269): read a length byte
(`unwrap_or(0)`), stop on 0, read that many label bytes, then additionally
`set_position(position + len)` (the double cursor advance of the source) and
push a 0 separator.  The loop is given `buf.length + 1` fuel: every
non-terminal iteration starts at a position `< buf.length` and strictly
increases it, so the fuel can never be exhausted and the fuel-out branch
(returning like the break branch) is unreachable. -/
def readNameLoop (buf : List Nat) : Nat → Nat → List Nat → List Nat × Nat
  | 0, pos, acc => (acc, pos)
  | fuel + 1, pos, acc =>
    match readU8 buf pos with
    | none => (acc, pos)
    | some (len, p1) =>
      if len = 0 then (acc, p1)
      else
        let r := readBytesPadded buf p1 len acc
        readNameLoop buf fuel (r.2 + len) (r.1 ++ [0])

/-- `DnsQuestion::read` (lines 257-274): runs the name loop, DISCARDS the
locally built name (the source never assigns its local `name` vector to
`self.name`), and sets `type := A`, `class := IN`.  Always `Ok`. -/
def DnsQuestion.read (q : DnsQuestion) (buf : List Nat) (pos : Nat) :
    DnsQuestion × Nat :=
  let decoded := readNameLoop buf (buf.length + 1) pos []
  ({ q with rtype := RecordType.A, rclass := RecordClass.IN }, decoded.2)

/-- `DnsAnswer::to_be_bytes` (lines 304-326): like the question encoder but a
part longer than 255 bytes hits the bare `panic!()`; on success it emits the
name labels, type, class, ttl, the `length` FIELD, and then all of `data`
(no check that `data.len() == length`). -/
def DnsAnswer.to_be_bytes (a : DnsAnswer) : Except EncErr (List Nat) :=
  match rsplitOnceDot a.name with
  | none => Except.error EncErr.invalidLabel
  | some (l1, l2) =>
    if l1.length > 255 ∨ l2.length > 255 then Except.error EncErr.panicked
    else Except.ok ([l1.length % 256] ++ l1 ++ [l2.length % 256] ++ l2 ++ [0] ++
      u16be a.rtype.val ++ u16be a.rclass.val ++ u32be a.ttl ++
      u16be a.length ++ a.data)

/-- `DnsAnswer::read` (lines 327-336): ignores the buffer entirely and fills
in the fixed synthesized record; `name` and the cursor are untouched. -/
def DnsAnswer.read (a : DnsAnswer) (_buf : List Nat) (pos : Nat) :
    DnsAnswer × Nat :=
  ({ a with rtype := RecordType.A, rclass := RecordClass.IN, ttl := 60,
            length := 4, data := [8, 8, 8, 8] }, pos)

/-- `self.questions.iter_mut().try_for_each(|q| q.read(buf))` (line 32); each
`DnsQuestion::read` always returns `Ok`, threading the cursor. -/
def readQuestions (qs : List DnsQuestion) (buf : List Nat) (pos : Nat) :
    List DnsQuestion × Nat :=
  match qs with
  | [] => ([], pos)
  | q :: rest =>
    let r := q.read buf pos
    let rr := readQuestions rest buf r.2
    (r.1 :: rr.1, rr.2)

/-- The indexed answer pass of `DnsMessage::read` (lines 33-36):
`a.name = self.questions[i].name.clone(); a.read(buf)`.  `none` models the
index-out-of-bounds panic of `self.questions[i]`. -/
def readAnswers (qs : List DnsQuestion) (ans : List DnsAnswer) (i : Nat)
    (buf : List Nat) (pos : Nat) : Option (List DnsAnswer × Nat) :=
  match ans with
  | [] => some ([], pos)
  | a :: rest =>
    match qs.get? i with
    | none => none
    | some q =>
      let r := DnsAnswer.read { a with name := q.name } buf pos
      match readAnswers qs rest (i + 1) buf r.2 with
      | none => none
      | some (rest', p2) => some (r.1 :: rest', p2)

/-- `DnsMessage::read` (lines 30-38): header read, then all questions, then
all answers (each answer first copying the matching question's name). -/
def DnsMessage.read (m : DnsMessage) (buf : List Nat) :
    Option (DnsMessage × Nat) :=
  match m.header.read buf 0 with
  | none => none
  | some (h', p1) =>
    let qr := readQuestions m.questions buf p1
    match readAnswers qr.1 m.answers 0 buf qr.2 with
    | none => none
    | some (as', p3) =>
      some ({ header := h', questions := qr.1, answers := as' }, p3)

/-- `DnsHeader::default()`: all fields zero / false / `NoError`. -/
def hdr0 : DnsHeader :=
  ⟨0, false, 0, false, false, false, false, false, ResponseCode.NoError, 0, 0, 0, 0⟩

/-- The message built per datagram in `main` (lines 348-352): default header,
one default question, one default answer. -/
def serverInit : DnsMessage :=
  ⟨hdr0, [⟨[], RecordType.A, RecordClass.IN⟩],
   [⟨[], RecordType.A, RecordClass.IN, 0, 0, []⟩]⟩

/-- The scenario query tail: flag byte 0x00, counts (1,0,0,0), then the
question "abc.com" type A class IN. -/
def scRest : List Nat :=
  [0, 0, 1, 0, 0, 0, 0, 0, 0, 3, 97, 98, 99, 3, 99, 111, 109, 0, 0, 1, 0, 1]

/-- The message produced by `DnsMessage.read serverInit` on the scenario
query `[id=0x1234, flags=0x0100, counts (1,0,0,0)] ++ "abc.com" A IN`. -/
def scMsg : DnsMessage :=
  ⟨⟨4660, true, 0, false, false, true, false, false, ResponseCode.NoError, 1, 1, 0, 0⟩,
   [⟨[], RecordType.A, RecordClass.IN⟩],
   [⟨[], RecordType.A, RecordClass.IN, 60, 4, [8, 8, 8, 8]⟩]⟩

set_option maxRecDepth 2000 in
/-- Bit arithmetic of the encoded flag byte 2: masking with 0b0111_0000 and
shifting right by 3 recovers only `opcode AND 0b1110`, and bit 0 is `rd`. -/
theorem byte2_bits : ∀ op < 16, ∀ (q a t r : Bool),
    ((((q.toNat <<< 7) ||| ((op <<< 3) % 256) ||| (a.toNat <<< 2) |||
       (t.toNat <<< 1) ||| r.toNat) &&& 112) >>> 3 = op &&& 14) ∧
    (((q.toNat <<< 7) ||| ((op <<< 3) % 256) ||| (a.toNat <<< 2) |||
       (t.toNat <<< 1) ||| r.toNat) &&& 1 = r.toNat) := by decide

set_option maxRecDepth 4000 in
/-- A byte whose OPCODE field (bits 6-3) is zero also has zero bits 6-4. -/
theorem opcodeField_zero_mask :
    ∀ b2 < 256, (b2 >>> 3) &&& 15 = 0 → (b2 &&& 112) >>> 3 = 0 := by decide

/-- `DnsHeader::read` on any buffer of at least 3 bytes: it consumes exactly
the first three bytes and overwrites every field. -/
theorem dnsHeader_read_cons (h : DnsHeader) (x y z : Nat) (rest : List Nat) :
    DnsHeader.read h (x :: y :: z :: rest) 0 =
      some (⟨x * 256 + y, true, (z &&& 112) >>> 3, false, false,
        decide (0 < z &&& 1), false, false,
        (if (z &&& 112) >>> 3 = 0 then ResponseCode.NoError
         else ResponseCode.NotImplemented), 1, 1, 0, 0⟩, 3) := rfl

/-- C1: the claimed byte-2/byte-3 layout fails on byte 3: the encoder computes
`(ra<<7)|(z<<4)|(rcode<<7)` instead of placing RCODE in bits 3-0, so a header
with RCODE = ServerFailure (2) encodes to the very same 12 bytes as the
all-default header with RCODE = NoError, with byte 3 equal to 0 where the
claimed layout requires 2. -/
theorem header_encode_misplaces_rcode :
    DnsHeader.to_be_bytes { hdr0 with rcode := ResponseCode.ServerFailure } =
      DnsHeader.to_be_bytes hdr0 ∧
    (DnsHeader.to_be_bytes { hdr0 with rcode := ResponseCode.ServerFailure }).get? 3 =
      some 0 ∧
    ResponseCode.val ResponseCode.ServerFailure = 2 ∧
    ({ hdr0 with rcode := ResponseCode.ServerFailure } : DnsHeader) ≠ hdr0 := by
  decide

/-- C2 (counterexample): decoding the encoding of the default header does not
give it back: `read` forces `qr = true` and counts `(1,1,0,0)`. -/
theorem header_roundtrip_fails :
    (DnsHeader.read hdr0 (DnsHeader.to_be_bytes hdr0) 0).map Prod.fst ≠ some hdr0 := by
  decide

/-- C2 (amended): decoding the 12-byte encoding of a valid header keeps only
`id` and `rd`; it forces `qr = true`, masks the opcode to `opcode AND 0b1110`,
clears `aa`/`tc`/`ra`/`z`, recomputes `rcode` from the masked opcode, forces
the counts to `(1,1,0,0)`, and consumes only 3 of the 12 bytes.  So
`decode(encode(h)) = h` only for headers already of exactly that shape. -/
theorem header_read_of_encode (h hinit : DnsHeader)
    (hid : h.id < 65536) (hop : h.opcode < 16) :
    DnsHeader.read hinit (DnsHeader.to_be_bytes h) 0 =
      some (⟨h.id, true, h.opcode &&& 14, false, false, h.rd, false, false,
        (if h.opcode &&& 14 = 0 then ResponseCode.NoError
         else ResponseCode.NotImplemented), 1, 1, 0, 0⟩, 3) := by
  have hb := byte2_bits h.opcode hop h.qr h.aa h.tc h.rd
  have hcons : DnsHeader.to_be_bytes h = (h.id / 256 % 256) :: (h.id % 256) ::
      ((h.qr.toNat <<< 7) ||| ((h.opcode <<< 3) % 256) ||| (h.aa.toNat <<< 2) |||
        (h.tc.toNat <<< 1) ||| h.rd.toNat) ::
      ((h.ra.toNat <<< 7) ||| (h.z.toNat <<< 4) ||| ((h.rcode.val <<< 7) % 256)) ::
      (u16be h.qdcount ++ u16be h.ancount ++ u16be h.nscount ++ u16be h.arcount) := by
    simp [DnsHeader.to_be_bytes, u16be]
  have hid' : h.id / 256 % 256 * 256 + h.id % 256 = h.id := by omega
  rw [hcons, dnsHeader_read_cons, hb.1, hb.2, hid']
  cases h.rd <;> rfl

/-- Witness for `header_read_of_encode` at the header
`id=0x1234, rd=1`, all other fields zero. -/
theorem header_read_of_encode_w :
    ((4660 : Nat) < 65536 ∧ (0 : Nat) < 16) ∧
    DnsHeader.read hdr0
      (DnsHeader.to_be_bytes ⟨4660, false, 0, false, false, true, false, false,
        ResponseCode.NoError, 0, 0, 0, 0⟩) 0 =
      some (⟨4660, true, 0, false, false, true, false, false,
        ResponseCode.NoError, 1, 1, 0, 0⟩, 3) :=
  ⟨⟨by decide, by decide⟩, by
    have h := header_read_of_encode
      ⟨4660, false, 0, false, false, true, false, false,
        ResponseCode.NoError, 0, 0, 0, 0⟩ hdr0 (by decide) (by decide)
    simpa using h⟩

/-- C4: a query whose header OPCODE field (bits 6-3 of byte 2) is 1 — flag
byte 0x08 — gets RCODE = NoError, not NotImplemented: the decoder masks the
flag byte with 0b0111_0000 (losing opcode bit 0) before shifting by 3. -/
theorem opcode_one_gets_noerror :
    (DnsMessage.read serverInit [0, 0, 8, 0, 0, 1, 0, 0, 0, 0, 0, 0]).map
        (fun r => r.1.header.rcode) = some ResponseCode.NoError ∧
    ((8 : Nat) >>> 3) &&& 15 = 1 := by
  decide

/-- C5 (counterexample): a 3-byte input — fewer than 12 bytes — decodes
successfully, contradicting the claim that every input shorter than 12 bytes
fails. -/
theorem header_read_succeeds_on_three :
    DnsHeader.read hdr0 [0, 0, 0] 0 =
      some (⟨0, true, 0, false, false, false, false, false,
        ResponseCode.NoError, 1, 1, 0, 0⟩, 3) := by
  decide

/-- C5 (amended): header decoding fails exactly when fewer than 3 bytes are
available (the error is the propagated end-of-input `Err`, there is no
`TruncatedHeader` value, and no panic: `read` is total); with 3 or more bytes
it succeeds, consuming exactly 3 bytes and never touching bytes 3-11. -/
theorem header_read_three_bytes (h : DnsHeader) (buf : List Nat) :
    (DnsHeader.read h buf 0 = none ↔ buf.length < 3) ∧
    (DnsHeader.read h buf 0).map Prod.snd =
      (if buf.length < 3 then none else some 3) := by
  match buf with
  | [] => exact ⟨by simp [DnsHeader.read, readU16], by simp [DnsHeader.read, readU16]⟩
  | [a] =>
    exact ⟨by simp [DnsHeader.read, readU16, List.get?],
           by simp [DnsHeader.read, readU16, List.get?]⟩
  | [a, b] =>
    exact ⟨by simp [DnsHeader.read, readU16, readU8, List.get?],
           by simp [DnsHeader.read, readU16, readU8, List.get?]⟩
  | a :: b :: c :: rest =>
    rw [dnsHeader_read_cons]
    have hlen : ¬ ((a :: b :: c :: rest).length < 3) := by simp
    rw [if_neg hlen]
    exact ⟨by simp [hlen], rfl⟩

/-- C9: each out-of-range raw value hits the `panic!("Invalid value")` arm of
the `From` conversions (modelled as `none`): 6 for ResponseCode (range 0-5),
0 and 17 for RecordType (range 1-16), 0 and 5 for RecordClass (range 1-4);
the claimed `InvalidEnumValue` failure does not exist — the process aborts. -/
theorem enum_from_raw_panics :
    ResponseCode.fromU8 6 = none ∧ ResponseCode.fromU8 255 = none ∧
    RecordType.fromU16 0 = none ∧ RecordType.fromU16 17 = none ∧
    RecordClass.fromU16 0 = none ∧ RecordClass.fromU16 5 = none := by
  decide

/-- C10: `DnsQuestion::read` never writes the decoded bytes into the
question: for every prior question state, buffer and cursor position, the
`name` field after the call equals its value before the call. -/
theorem question_read_preserves_name (q : DnsQuestion) (buf : List Nat) (pos : Nat) :
    (DnsQuestion.read q buf pos).1.name = q.name := rfl

/-- C3: whenever the server's per-datagram `DnsMessage::read` succeeds on an
inbound query, the response message has the query's big-endian ID, `qr=1`,
counts `(1,1,0,0)`, RCODE = NoError when the query's OPCODE field (bits 6-3
of byte 2) is zero, and the single synthesized answer has TTL 60 and data
`[8,8,8,8]`. -/
theorem serverResponse_fields (b0 b1 b2 : Nat) (rest : List Nat)
    (m' : DnsMessage) (p : Nat) (hb2 : b2 < 256)
    (hread : DnsMessage.read serverInit (b0 :: b1 :: b2 :: rest) = some (m', p)) :
    m'.header.id = b0 * 256 + b1 ∧ m'.header.qr = true ∧
    m'.header.qdcount = 1 ∧ m'.header.ancount = 1 ∧
    m'.header.nscount = 0 ∧ m'.header.arcount = 0 ∧
    ((b2 >>> 3) &&& 15 = 0 → m'.header.rcode = ResponseCode.NoError) ∧
    m'.answers.map DnsAnswer.ttl = [60] ∧
    m'.answers.map DnsAnswer.data = [[8, 8, 8, 8]] := by
  simp only [DnsMessage.read, serverInit, dnsHeader_read_cons, readQuestions,
    DnsQuestion.read, readAnswers, DnsAnswer.read, List.get?,
    Option.some.injEq, Prod.mk.injEq] at hread
  obtain ⟨hm, hp⟩ := hread
  subst hm
  refine ⟨rfl, rfl, rfl, rfl, rfl, rfl, ?_, rfl, rfl⟩
  intro hz
  simp [opcodeField_zero_mask b2 hb2 hz]

/-- Witness for `serverResponse_fields` at the scenario query
`id=0x1234, flags=0x0100, counts (1,0,0,0), question "abc.com" A IN`. -/
theorem serverResponse_fields_w :
    ((1 : Nat) < 256 ∧
      DnsMessage.read serverInit (18 :: 52 :: 1 :: scRest) = some (scMsg, 4)) ∧
    (scMsg.header.id = 18 * 256 + 52 ∧ scMsg.header.qr = true ∧
     scMsg.header.qdcount = 1 ∧ scMsg.header.ancount = 1 ∧
     scMsg.header.nscount = 0 ∧ scMsg.header.arcount = 0 ∧
     (((1 : Nat) >>> 3) &&& 15 = 0 → scMsg.header.rcode = ResponseCode.NoError) ∧
     scMsg.answers.map DnsAnswer.ttl = [60] ∧
     scMsg.answers.map DnsAnswer.data = [[8, 8, 8, 8]]) :=
  ⟨⟨by decide, by decide⟩,
   serverResponse_fields 18 52 1 scRest scMsg 4 (by decide) (by decide)⟩

/-- C6 (counterexample): a name whose first label is 64 bytes of `a` followed
by `.b` encodes successfully — no `InvalidName` failure at the 63-byte DNS
label limit; the encoder only rejects parts longer than 255 bytes. -/
theorem label64_encodes :
    DnsQuestion.to_be_bytes
      ⟨List.replicate 64 97 ++ [46, 98], RecordType.A, RecordClass.IN⟩ =
      Except.ok (64 :: (List.replicate 64 97 ++ [1, 98, 0, 0, 1, 0, 1])) := by
  decide

/-- C6 (amended): for a name that splits at its last dot into `l1` and `l2`,
encoding succeeds exactly when both parts are at most 255 bytes (so 63-byte
and 64-byte labels alike succeed), and a part longer than 255 bytes fails
with the `Label is too big` error — the limit enforced is 255, not 63, and
there is no `InvalidName` error (names without a dot fail as
`Invalid label`). -/
theorem question_encode_255_limit (q : DnsQuestion) (l1 l2 : List Nat)
    (h : rsplitOnceDot q.name = some (l1, l2)) :
    DnsQuestion.to_be_bytes q =
      if l1.length > 255 ∨ l2.length > 255 then Except.error EncErr.labelTooBig
      else Except.ok ([l1.length % 256] ++ l1 ++ [l2.length % 256] ++ l2 ++ [0] ++
        u16be q.rtype.val ++ u16be q.rclass.val) := by
  simp only [DnsQuestion.to_be_bytes, h]

/-- Witness for `question_encode_255_limit` at a 63-byte first label. -/
theorem question_encode_255_limit_w :
    rsplitOnceDot (List.replicate 63 97 ++ [46, 98]) =
      some (List.replicate 63 97, [98]) ∧
    DnsQuestion.to_be_bytes
      ⟨List.replicate 63 97 ++ [46, 98], RecordType.A, RecordClass.IN⟩ =
      Except.ok (63 :: (List.replicate 63 97 ++ [1, 98, 0, 0, 1, 0, 1])) := by
  refine ⟨by decide, ?_⟩
  have h := question_encode_255_limit
    ⟨List.replicate 63 97 ++ [46, 98], RecordType.A, RecordClass.IN⟩
    (List.replicate 63 97) [98] (by decide)
  rw [h]
  decide

/-- C7 (counterexample): an answer whose `length` field is 5 but whose data
is only 3 bytes encodes successfully — emitting length 5 and then the 3 data
bytes — instead of failing with `LengthMismatch`. -/
theorem length_mismatch_encodes :
    DnsAnswer.to_be_bytes
      ⟨[97, 46, 98], RecordType.A, RecordClass.IN, 60, 5, [1, 2, 3]⟩ =
      Except.ok [1, 97, 1, 98, 0, 0, 1, 0, 1, 0, 0, 0, 60, 0, 5, 1, 2, 3] := by
  decide

/-- C7 (amended): answer encoding never compares `data.len()` with `length`:
whenever the name splits at its last dot into parts of at most 255 bytes it
succeeds, emitting name labels, type, class, TTL, the `length` FIELD, and
then all of `data` — whatever its actual length (a part over 255 bytes hits a
bare `panic!`, and a dotless name fails as `Invalid label`). -/
theorem answer_encode_no_length_check (a : DnsAnswer) (l1 l2 : List Nat)
    (h : rsplitOnceDot a.name = some (l1, l2)) :
    DnsAnswer.to_be_bytes a =
      if l1.length > 255 ∨ l2.length > 255 then Except.error EncErr.panicked
      else Except.ok ([l1.length % 256] ++ l1 ++ [l2.length % 256] ++ l2 ++ [0] ++
        u16be a.rtype.val ++ u16be a.rclass.val ++ u32be a.ttl ++
        u16be a.length ++ a.data) := by
  simp only [DnsAnswer.to_be_bytes, h]

/-- Witness for `answer_encode_no_length_check` at an answer whose `length`
field (7) disagrees with its 1-byte data. -/
theorem answer_encode_no_length_check_w :
    rsplitOnceDot [97, 46, 98] = some ([97], [98]) ∧
    DnsAnswer.to_be_bytes ⟨[97, 46, 98], RecordType.A, RecordClass.IN, 5, 7, [9]⟩ =
      Except.ok [1, 97, 1, 98, 0, 0, 1, 0, 1, 0, 0, 0, 5, 0, 7, 9] := by
  refine ⟨by decide, ?_⟩
  have h := answer_encode_no_length_check
    ⟨[97, 46, 98], RecordType.A, RecordClass.IN, 5, 7, [9]⟩ [97] [98] (by decide)
  rw [h]
  decide

/-- C8: the name round-trip fails at `"a.b"`: the encoder produces the wire
bytes `[1,97,1,98,0]` (plus type and class), but the decoder leaves the
question's `name` unchanged (empty here) — the locally decoded bytes are
discarded — and, double-advancing the cursor past each label, ends at
position 107 instead of consuming exactly the 5 encoded name bytes. -/
theorem name_roundtrip_broken :
    DnsQuestion.to_be_bytes ⟨[97, 46, 98], RecordType.A, RecordClass.IN⟩ =
      Except.ok [1, 97, 1, 98, 0, 0, 1, 0, 1] ∧
    DnsQuestion.read ⟨[], RecordType.A, RecordClass.IN⟩
      [1, 97, 1, 98, 0, 0, 1, 0, 1] 0 =
      (⟨[], RecordType.A, RecordClass.IN⟩, 107) ∧
    ([97, 46, 98] : List Nat) ≠ [] := by
  decide
